import Mathlib

/-!
Verification of `src/clients/openai_client.py` (class `OpenAIClient`).

The file is a singleton adapter around a remote conversational-AI service.
We shallowly embed it:

* Every request method is a pure function of the outcome of its single
  underlying network call, modelled as `Except String R` (an exception
  carries its message).  The method bodies mirror the Python line by line:
  `try/except` becomes a `match` on the outcome, sentinel returns are the
  literal sentinel values, and `logger.*` calls accumulate into a returned
  `List String` of log lines.
* The singleton lifecycle (`__new__`, `async_init`, `create`,
  `get_instance`) is embedded as explicit state passing over a
  `GlobalState` that holds the class attribute `_instance`; remote
  "retrieve assistant" invocations are counted so at-most-once claims can
  be stated.
* The concurrency of `async_init` is embedded as a small-step machine:
  each concurrent task executes two atomic blocks separated by the
  suspension point at `await client.beta.assistants.retrieve(...)`
  (the `async with asyncio.Lock()` acquires a freshly created lock and
  therefore never blocks, so it introduces no synchronisation between
  tasks), and a schedule is a list of task indices.
-/

/-- Sampling temperature of a model slot.  The Python value is a float read
from configuration; it is never computed with, only stored and passed
through, so we model it as a rational number. -/
abbrev Temperature := Rat

/-- Whitespace as recognised by Python `str.strip()` (ASCII range). -/
def pyIsSpace (c : Char) : Bool :=
  c == ' ' || c == '\t' || c == '\n' || c == '\x0b' || c == '\x0c' || c == '\r'

/-- Python `str.strip()`: remove leading and trailing whitespace. -/
def pyStrip (s : String) : String :=
  ⟨((s.data.dropWhile pyIsSpace).reverse.dropWhile pyIsSpace).reverse⟩

/-- Python `str.lower()` (ASCII case mapping, which covers every string this
client compares). -/
def pyLower (s : String) : String :=
  ⟨s.data.map Char.toLower⟩

/-- The values imported from `core.config` (read once at initialization). -/
structure Config where
  OPENAI_API_KEY : String
  COT_MODEL_ID : String
  MSG_MODEL_ID : String
  IMG_MODEL_ID : String
  COT_MODEL_TEMP : Temperature
  MSG_MODEL_TEMP : Temperature
  IMG_MODEL_TEMP : Temperature
  ASSISTANT_ID : String
  deriving Repr, DecidableEq

/-- Modelled from the spec: `GLMessage` (from `models.threads`, not part of
this file) is the external message entity with two required fields, `role`
(sender category) and `content` (text payload); the client only reads
them. -/
structure GLMessage where
  role : String
  content : String
  deriving Repr, DecidableEq

/-- A plain chat message dictionary `\x7b"role": r, "content": c\x7d` as built by
`determine_content_type` and received in its `OAI_messages` argument. -/
structure OAIMsg where
  role : String
  content : String
  deriving Repr, DecidableEq

/-- The `message` object inside one choice of a chat-completion response. -/
structure ChoiceMessage where
  content : String
  deriving Repr, DecidableEq

/-- One element of `response.choices`. -/
structure Choice where
  message : ChoiceMessage
  deriving Repr, DecidableEq

/-- A chat-completion response as read by this client: only its list of
choices is ever inspected. -/
structure ChatResponse where
  choices : List Choice
  deriving Repr, DecidableEq

/-- The thread object returned by `client.beta.threads.create()`: only its
`id` is read. -/
structure AThread where
  id : String
  deriving Repr, DecidableEq

/-- `create_asst_thread` (lines 69-82): logs a debug line, performs the
remote thread creation, returns `thread.id` on success; any exception is
caught, logged, and converted to `None`. -/
def create_asst_thread (user_id : Nat) (call : Except String AThread) : Option String × List String :=
  match call with
  | .ok thread =>
      (some thread.id, ["Creating assistant thread for user " ++ toString user_id])
  | .error e =>
      (none, ["Creating assistant thread for user " ++ toString user_id,
              "Failed to create thread for user " ++ toString user_id ++ ": " ++ e])

/-- `add_to_asst_thread` (lines 84-102): performs the remote message
creation; returns `True` (with an info log) on success, and on any
exception logs the failure and returns `False`. -/
def add_to_asst_thread (thread_id : Nat) (message : GLMessage) (call : Except String Unit) : Bool × List String :=
  match call with
  | .ok _ =>
      (true, ["Added message to asst thread " ++ toString thread_id])
  | .error e =>
      (false, ["Failed to add message to thread:\n" ++ message.role ++ ": " ++ message.content
                ++ "\nTHREAD:" ++ toString thread_id ++ "\n" ++ e ++ "\n"])

/-- `image_describer` (lines 104-141): on a successful call, returns
`response.choices[0].message.content` when `response.choices` is nonempty
(note: without `.strip()`), and the sentinel `"No description available"`
when `choices` is empty; on any exception logs and returns the same
sentinel. -/
def image_describer (call : Except String ChatResponse) : String × List String :=
  match call with
  | .ok response =>
      match response.choices with
      | [] => ("No description available", [])
      | c :: _ => (c.message.content, [])
  | .error e =>
      ("No description available", ["Error processing image content: " ++ e])

/-- `text_summarizer` (lines 143-167): returns the stripped text of the
first choice, `"No summary available"` when `choices` is empty or on any
exception (which is logged). -/
def text_summarizer (call : Except String ChatResponse) : String × List String :=
  match call with
  | .ok response =>
      match response.choices with
      | [] => ("No summary available", [])
      | c :: _ => (pyStrip c.message.content, [])
  | .error e =>
      ("No summary available", ["Error summarizing description: " ++ e])

/-- `link_summarizer` (lines 169-194): same extraction shape as
`text_summarizer`. -/
def link_summarizer (call : Except String ChatResponse) : String × List String :=
  match call with
  | .ok response =>
      match response.choices with
      | [] => ("No summary available", [])
      | c :: _ => (pyStrip c.message.content, [])
  | .error e =>
      ("No summary available", ["Error summarizing description: " ++ e])

/-- The fixed system prompt of `determine_content_type` (lines 198-204). -/
def classify_system_prompt : String :=
  "Based on the most recent message, reply with one word that best describes the type of response that would be most relevant and helpful: \x27message\x27, \x27GIF\x27, \x27YouTube\x27, or \x27Website\x27\n"
  ++ "Do not provide any additional text or explanations.\n"
  ++ "If the user asks for the latest news or current events, respond with \x27Website\x27.\n"
  ++ "If a user responds with a Website, YouTube, or GIF, the bot should respond with a message.\n"
  ++ "**ONLY REPLY WITH ONE OF THE FOLLOWING WORDS:**: message, GIF, YouTube, or Website"

/-- The fixed final user prompt of `determine_content_type` (line 209). -/
def classify_final_prompt : String :=
  "Now determine the content type of your response: message, GIF, YouTube, or Website."

/-- The system message prepended by `determine_content_type`. -/
def classifySystemMsg : OAIMsg := { role := "system", content := classify_system_prompt }

/-- The final user message appended by `determine_content_type`. -/
def classifyFinalMsg : OAIMsg := { role := "user", content := classify_final_prompt }

/-- Lines 206-210: the outgoing message list
`[system_prompt_msg, *OAI_messages, final_user_msg]`. -/
def determine_content_type_messages (OAI_messages : List OAIMsg) : List OAIMsg :=
  classifySystemMsg :: (OAI_messages ++ [classifyFinalMsg])

/-- `determine_content_type` (lines 196-230), response handling: on success
takes `response.choices[0].message.content.strip().lower()` and returns it
when it is one of `["message", "gif", "youtube", "website"]`, otherwise
logs the invalid value and returns `None`.  An empty `choices` list makes
`choices[0]` raise `IndexError`, which the same `except` catches and turns
into `None`; any exception from the call itself is likewise logged and
turned into `None`. -/
def determine_content_type (call : Except String ChatResponse) : Option String × List String :=
  match call with
  | .ok response =>
      match response.choices with
      | [] => (none, ["Error determining content type: list index out of range"])
      | c :: _ =>
          let content_type := pyLower (pyStrip c.message.content)
          if ["message", "gif", "youtube", "website"].contains content_type then
            (some content_type, [])
          else
            (none, ["Invalid content type \x27" ++ content_type])
  | .error e =>
      (none, ["Error determining content type: " ++ e])

/-- `request_asst_response` (lines 232-243): logs an info line, streams the
run to completion; any exception during streaming is caught and logged,
and the method returns normally (`None`) in every case. -/
def request_asst_response (cfg : Config) (thread_id : String) (call : Except String Unit) : Unit × List String :=
  match call with
  | .ok _ =>
      ((), ["Requesting assistant response for thread " ++ thread_id
             ++ " and assistant " ++ cfg.ASSISTANT_ID])
  | .error e =>
      ((), ["Requesting assistant response for thread " ++ thread_id
             ++ " and assistant " ++ cfg.ASSISTANT_ID,
            "Error streaming assistant response: " ++ e])

/-! ## Singleton lifecycle (sequential embedding)

`OpenAIClient._instance` is a class attribute; `__new__` allocates the one
instance lazily (under `threading.Lock`, so sequentially consistent) and
`async_init` fills in the assistant and the three model slots exactly when
`_initialized` is still false.  We track the number of remote
"retrieve assistant" invocations in the global state so that at-most-once
claims are expressible.  Instance identity (`is`-equality of the Python
object) is modelled by a numeric id drawn from a fresh-id counter. -/

/-- The attributes `async_init` assigns on the instance (lines 34-48). -/
structure AsstConfig where
  assistant : Option String
  chain_of_thought_model_id : String
  chain_of_thought_temp : Temperature
  message_model_id : String
  message_model_temp : Temperature
  image_model_id : String
  image_model_temp : Temperature
  deriving Repr, DecidableEq

/-- The singleton instance: its identity, its `_initialized` flag, and the
attributes set by `async_init` (absent until then). -/
structure InstanceState where
  id : Nat
  initialized : Bool
  config : Option AsstConfig
  deriving Repr, DecidableEq

/-- Process-wide state: the class attribute `_instance`, a fresh-id counter
for newly allocated objects, and the count of remote "retrieve assistant"
invocations performed so far. -/
structure GlobalState where
  inst : Option InstanceState
  nextId : Nat
  retrieveCount : Nat
  deriving Repr, DecidableEq

/-- The state of a process that has not constructed the client yet. -/
def emptyState : GlobalState := { inst := none, nextId := 0, retrieveCount := 0 }

/-- `__new__` (lines 16-23): double-checked under the shared
`threading.Lock`, allocates the instance with `_initialized = False` the
first time and returns the existing instance afterwards. -/
def new_instance (s : GlobalState) : InstanceState × GlobalState :=
  match s.inst with
  | some i => (i, s)
  | none =>
      let i : InstanceState := { id := s.nextId, initialized := false, config := none }
      (i, { s with inst := some i, nextId := s.nextId + 1 })

/-- `async_init` (lines 25-50), run without interleaving: if
`_initialized` is false, perform the remote retrieval (outcome
`retrieveResult`; a failure is logged and stored as `assistant = None`
without aborting), store the three model slots from configuration, and set
`_initialized = True`; otherwise do nothing. -/
def async_init (cfg : Config) (retrieveResult : Except String String) (s : GlobalState) : GlobalState :=
  match s.inst with
  | none => s
  | some i =>
      if i.initialized then s
      else
        let assistant : Option String :=
          match retrieveResult with
          | .ok a => some a
          | .error _ => none
        let c : AsstConfig :=
          { assistant := assistant
            chain_of_thought_model_id := cfg.COT_MODEL_ID
            chain_of_thought_temp := cfg.COT_MODEL_TEMP
            message_model_id := cfg.MSG_MODEL_ID
            message_model_temp := cfg.MSG_MODEL_TEMP
            image_model_id := cfg.IMG_MODEL_ID
            image_model_temp := cfg.IMG_MODEL_TEMP }
        { s with inst := some { i with initialized := true, config := some c },
                 retrieveCount := s.retrieveCount + 1 }

/-- `create` (lines 52-57): `cls()` followed by `await instance.async_init()`,
returning the instance (here: its id). -/
def create (cfg : Config) (retrieveResult : Except String String) (s : GlobalState) : Nat × GlobalState :=
  let (i, s1) := new_instance s
  let s2 := async_init cfg retrieveResult s1
  (i.id, s2)

/-- The message of the `RuntimeError` raised by `get_instance`. -/
def notReadyMsg : String :=
  "OpenAIClient must be initialized asynchronously using \x60await OpenAIClient.create()\x60 before accessing it."

/-- `get_instance` (lines 59-67): calls `cls()` (which may allocate an
uninitialized instance) and raises `RuntimeError` unless `_initialized` is
true; otherwise returns the instance (here: its id). -/
def get_instance (s : GlobalState) : Except String Nat × GlobalState :=
  let (i, s1) := new_instance s
  if i.initialized then (.ok i.id, s1)
  else (.error notReadyMsg, s1)

/-- True when no initializer call has completed yet: the instance either
does not exist or still has `_initialized = False`. -/
def notReady (s : GlobalState) : Bool :=
  match s.inst with
  | none => true
  | some i => !i.initialized

/-! ## Concurrent `async_init` (small-step embedding)

Line 28 executes `async with asyncio.Lock():` — the lock is freshly
constructed on every call, so acquiring it never blocks and provides no
mutual exclusion between concurrent tasks.  Within one asyncio event loop
a task therefore runs `async_init` as two atomic blocks around the single
true suspension point, `await client.beta.assistants.retrieve(...)`:

* block 1 (lines 27-34): check `_initialized`; if false, acquire the fresh
  lock, re-check `_initialized`, build the connection and issue the remote
  retrieval, then suspend;
* block 2 (lines 35-50): on resumption, store the assistant and the model
  slots and set `_initialized = True`.
-/

/-- Where a task inside `async_init` currently is. -/
inductive TaskPC where
  | start
  | awaitingRetrieve
  | finished
  deriving Repr, DecidableEq

/-- Shared state plus the program counter of every concurrent
`async_init` task. -/
structure SimState where
  initialized : Bool
  retrieveCount : Nat
  tasks : List TaskPC
  deriving Repr, DecidableEq

/-- Run one atomic block of task `t`.  In `start`, the task returns at once
when `_initialized` is already true, and otherwise passes both checks
(no other task can have set the flag, and the fresh lock cannot be held by
anyone), issues the remote retrieval and suspends.  In `awaitingRetrieve`,
it stores the results and sets `_initialized = True`. -/
def stepTask (s : SimState) (t : Nat) : SimState :=
  match s.tasks.get? t with
  | none => s
  | some .start =>
      if s.initialized then
        { s with tasks := s.tasks.set t .finished }
      else
        { s with retrieveCount := s.retrieveCount + 1,
                 tasks := s.tasks.set t .awaitingRetrieve }
  | some .awaitingRetrieve =>
      { s with initialized := true, tasks := s.tasks.set t .finished }
  | some .finished => s

/-- Run a schedule (a list of task indices) from a state. -/
def runSchedule (sched : List Nat) (s : SimState) : SimState :=
  sched.foldl stepTask s

/-- Two tasks both entering `async_init` on the freshly created, not yet
initialized instance. -/
def initSim2 : SimState :=
  { initialized := false, retrieveCount := 0, tasks := [.start, .start] }

/-! ## Public operations as state transformers

Used to state the post-initialization immutability invariant.  Each request
method carries the outcome of its one underlying network call; none of
them assigns any attribute, which the embedding reflects by returning the
state unchanged after computing the method's pure result. -/

/-- One invocation of a public operation of the client, together with the
outcome of its underlying network call. -/
inductive Op where
  | opCreate (retrieveResult : Except String String)
  | opGetInstance
  | opCreateAsstThread (user_id : Nat) (call : Except String AThread)
  | opAddToAsstThread (thread_id : Nat) (message : GLMessage) (call : Except String Unit)
  | opImageDescriber (call : Except String ChatResponse)
  | opTextSummarizer (call : Except String ChatResponse)
  | opLinkSummarizer (call : Except String ChatResponse)
  | opDetermineContentType (OAI_messages : List OAIMsg) (call : Except String ChatResponse)
  | opRequestAsstResponse (thread_id : String) (call : Except String Unit)
  deriving Repr

/-- Effect of one public operation on the process-wide state. -/
def stepOp (cfg : Config) (s : GlobalState) : Op → GlobalState
  | .opCreate r => (create cfg r s).2
  | .opGetInstance => (get_instance s).2
  | .opCreateAsstThread uid call =>
      let _ := create_asst_thread uid call
      s
  | .opAddToAsstThread tid msg call =>
      let _ := add_to_asst_thread tid msg call
      s
  | .opImageDescriber call =>
      let _ := image_describer call
      s
  | .opTextSummarizer call =>
      let _ := text_summarizer call
      s
  | .opLinkSummarizer call =>
      let _ := link_summarizer call
      s
  | .opDetermineContentType ms call =>
      let _ := determine_content_type_messages ms
      let _ := determine_content_type call
      s
  | .opRequestAsstResponse tid call =>
      let _ := request_asst_response cfg tid call
      s

/-- Initialization has completed with attribute values `c`. -/
def configReady (s : GlobalState) (c : AsstConfig) : Prop :=
  ∃ i, s.inst = some i ∧ i.initialized = true ∧ i.config = some c

/-! ## Python list heap (for the no-mutation frame property)

The caller's `OAI_messages` is a mutable Python list.  To state that
`determine_content_type` does not mutate it we model the list heap
explicitly: cells are addressed by allocation order, the caller passes a
reference, and the list display `[a, *xs, b]` (lines 206-210) reads `xs`
and allocates a fresh cell. -/

/-- The heap of Python list objects of type `List[Dict]`. -/
structure PyHeap where
  cells : List (List OAIMsg)
  deriving Repr, DecidableEq

/-- Dereference a list reference. -/
def readList (h : PyHeap) (r : Nat) : List OAIMsg :=
  (h.cells.get? r).getD []

/-- Allocate a fresh list object, returning the new heap and its
reference. -/
def allocList (h : PyHeap) (xs : List OAIMsg) : PyHeap × Nat :=
  ({ cells := h.cells ++ [xs] }, h.cells.length)

/-- Lines 206-210 as a heap operation: read the caller's list, build
`[system_msg, *OAI_messages, final_msg]` in a freshly allocated cell, and
return a reference to it. -/
def determine_content_type_build (h : PyHeap) (OAI_messages : Nat) : PyHeap × Nat :=
  allocList h (determine_content_type_messages (readList h OAI_messages))

/-! ## Concrete fixtures used by the witness theorems -/

/-- A concrete configuration. -/
def cfgW : Config :=
  { OPENAI_API_KEY := "key"
    COT_MODEL_ID := "cot-model"
    MSG_MODEL_ID := "msg-model"
    IMG_MODEL_ID := "img-model"
    COT_MODEL_TEMP := 0
    MSG_MODEL_TEMP := 1
    IMG_MODEL_TEMP := 1
    ASSISTANT_ID := "asst-1" }

/-- The attribute values `async_init` stores under `cfgW` with a successful
retrieval of assistant `"asst-1"`. -/
def asstCfgW : AsstConfig :=
  { assistant := some "asst-1"
    chain_of_thought_model_id := "cot-model"
    chain_of_thought_temp := 0
    message_model_id := "msg-model"
    message_model_temp := 1
    image_model_id := "img-model"
    image_model_temp := 1 }

/-- A concrete initialized instance. -/
def instW : InstanceState := { id := 0, initialized := true, config := some asstCfgW }

/-- A concrete process state in which initialization has completed. -/
def readyStateW : GlobalState := { inst := some instW, nextId := 1, retrieveCount := 1 }

/-- A concrete two-cell heap. -/
def heapW : PyHeap :=
  { cells := [[{ role := "user", content := "hi" }], [{ role := "assistant", content := "yo" }]] }

/-! ## Theorems -/

/-- C1: the claim says that for every set of concurrent `async_init` calls
the remote "retrieve assistant" operation is invoked at most once.  The
code violates it: line 28 creates a fresh `asyncio.Lock()` on every call,
so it never blocks a concurrent task, and the schedule in which a second
task enters `async_init` while the first is suspended at its
`await ... retrieve(...)` performs the remote retrieval twice.  This
theorem evaluates that interleaving of two tasks. -/
theorem async_init_concurrent_double_retrieve :
    (runSchedule [0, 1, 0, 1] initSim2).retrieveCount = 2 ∧
    ¬ (runSchedule [0, 1, 0, 1] initSim2).retrieveCount ≤ 1 ∧
    (runSchedule [0, 1, 0, 1] initSim2).initialized = true := by
  decide

/-- C2 counterexample: the claim says `describeImage` returns the trimmed
text of the first choice, but `image_describer` does not call `.strip()`;
on a choice whose text carries surrounding whitespace the returned string
differs from the trimmed text. -/
theorem image_describer_untrimmed_counterexample :
    (image_describer (.ok { choices := [{ message := { content := " A red bicycle. " } }] })).1
      ≠ pyStrip " A red bicycle. " := by
  decide

/-- C2 (amended): `image_describer` returns the raw (untrimmed) text of the
first choice when the response has at least one choice; when `choices` is
empty, or on any failure, it returns exactly `"No description available"`;
a one-choice response with text `"A red bicycle."` yields
`"A red bicycle."`. -/
theorem image_describer_extraction (c : Choice) (rest : List Choice) (e : String) :
    (image_describer (.ok { choices := c :: rest })).1 = c.message.content ∧
    (image_describer (.ok { choices := [] })).1 = "No description available" ∧
    (image_describer (.error e)).1 = "No description available" ∧
    (image_describer (.ok { choices := [{ message := { content := "A red bicycle." } }] })).1
      = "A red bicycle." := by
  exact ⟨rfl, rfl, rfl, by decide⟩

/-- C3: `determine_content_type` strips and lower-cases the first choice's
text; it returns that word exactly when it lies in
`["message", "gif", "youtube", "website"]` and returns `None` otherwise.
In particular `"GIF"` yields `"gif"` with no log, and `"Maybe?"` yields
`None` together with the invalid-value error log. -/
theorem determine_content_type_classification (c : Choice) (rest : List Choice) :
    (determine_content_type (.ok { choices := c :: rest })).1 =
      (if ["message", "gif", "youtube", "website"].contains (pyLower (pyStrip c.message.content))
       then some (pyLower (pyStrip c.message.content)) else none) ∧
    determine_content_type (.ok { choices := [{ message := { content := "GIF" } }] })
      = (some "gif", []) ∧
    determine_content_type (.ok { choices := [{ message := { content := "Maybe?" } }] })
      = (none, ["Invalid content type \x27maybe?"]) := by
  refine ⟨?_, by decide, by decide⟩
  cases hm : ["message", "gif", "youtube", "website"].contains (pyLower (pyStrip c.message.content)) with
  | false => simp only [determine_content_type]; rw [hm]; simp
  | true => simp only [determine_content_type]; rw [hm]; simp

/-- C4: while no initializer call has completed, `get_instance` raises the
not-ready `RuntimeError` (it never returns a half-initialized instance);
and after `create` completes, `get_instance` returns exactly the instance
the async factory produced. -/
theorem get_instance_contract (s : GlobalState) (cfg : Config) (r : Except String String)
    (h : notReady s = true) :
    (get_instance s).1 = .error notReadyMsg ∧
    (get_instance (create cfg r s).2).1 = .ok (create cfg r s).1 := by
  cases hs : s.inst with
  | none =>
      simp [get_instance, new_instance, create, async_init, hs]
  | some i =>
      have hinit : i.initialized = false := by
        simpa [notReady, hs] using h
      simp [get_instance, new_instance, create, async_init, hs, hinit]

/-- C4 witness: the contract instantiated on the fresh process state. -/
theorem get_instance_contract_witness :
    (get_instance emptyState).1 = .error notReadyMsg ∧
    (get_instance (create cfgW (.ok "asst-1") emptyState).2).1
      = .ok (create cfgW (.ok "asst-1") emptyState).1 :=
  get_instance_contract emptyState cfgW (.ok "asst-1") (by decide)

/-- C5: every request method converts a failing network call into its
documented sentinel (the embedding gives each method a total non-Except
result type, so no transport exception can propagate), and each one logs
the failure; in particular `create_asst_thread` returns `None` on failure
and `request_asst_response` logs and returns normally. -/
theorem request_methods_error_sentinels (cfg : Config) (uid tid : Nat) (msg : GLMessage)
    (tstr : String) (e : String) :
    (create_asst_thread uid (.error e)).1 = none ∧
    (add_to_asst_thread tid msg (.error e)).1 = false ∧
    (image_describer (.error e)).1 = "No description available" ∧
    (text_summarizer (.error e)).1 = "No summary available" ∧
    (link_summarizer (.error e)).1 = "No summary available" ∧
    (determine_content_type (.error e)).1 = none ∧
    (request_asst_response cfg tstr (.error e)).1 = () ∧
    (create_asst_thread uid (.error e)).2 ≠ [] ∧
    (add_to_asst_thread tid msg (.error e)).2 ≠ [] ∧
    (image_describer (.error e)).2 ≠ [] ∧
    (text_summarizer (.error e)).2 ≠ [] ∧
    (link_summarizer (.error e)).2 ≠ [] ∧
    (determine_content_type (.error e)).2 ≠ [] ∧
    (request_asst_response cfg tstr (.error e)).2 ≠ [] := by
  refine ⟨rfl, rfl, rfl, rfl, rfl, rfl, rfl, ?_, ?_, ?_, ?_, ?_, ?_, ?_⟩ <;>
    simp [create_asst_thread, add_to_asst_thread, image_describer, text_summarizer,
          link_summarizer, determine_content_type, request_asst_response]

/-- C6: `add_to_asst_thread` returns `False` when the underlying
message-create call fails and `True` when it succeeds, and in both
outcomes (indeed for any outcome) it leaves the process-wide client state
unchanged. -/
theorem add_to_asst_thread_contract (cfg : Config) (s : GlobalState) (tid : Nat)
    (msg : GLMessage) (e : String) (call : Except String Unit) :
    (add_to_asst_thread tid msg (.error e)).1 = false ∧
    (add_to_asst_thread tid msg (.ok ())).1 = true ∧
    stepOp cfg s (.opAddToAsstThread tid msg call) = s := by
  exact ⟨rfl, rfl, rfl⟩

/-- C7: the outgoing list of `determine_content_type` is exactly the fixed
system-instruction message, followed by the caller's messages in their
original order, followed by the fixed final user-instruction message. -/
theorem determine_content_type_messages_shape (ms : List OAIMsg) :
    determine_content_type_messages ms = classifySystemMsg :: ms ++ [classifyFinalMsg] ∧
    (determine_content_type_messages ms).head? = some classifySystemMsg ∧
    (determine_content_type_messages ms).getLast? = some classifyFinalMsg ∧
    ((determine_content_type_messages ms).drop 1).dropLast = ms ∧
    (determine_content_type_messages ms).length = ms.length + 2 := by
  refine ⟨rfl, rfl, ?_, ?_, ?_⟩
  · show ((classifySystemMsg :: ms) ++ [classifyFinalMsg]).getLast? = some classifyFinalMsg
    exact List.getLast?_concat _
  · show (ms ++ [classifyFinalMsg]).dropLast = ms
    exact List.dropLast_concat
  · simp [determine_content_type_messages]

/-- C8: running the async factory a second time after a completed
initialization returns the same instance and changes nothing: in
particular the remote-retrieval count and every configuration attribute
stay exactly as the first call left them. -/
theorem create_idempotent (cfg cfg2 : Config) (r r2 : Except String String) (s : GlobalState) :
    (create cfg2 r2 (create cfg r s).2).1 = (create cfg r s).1 ∧
    (create cfg2 r2 (create cfg r s).2).2 = (create cfg r s).2 ∧
    (create cfg2 r2 (create cfg r s).2).2.retrieveCount = (create cfg r s).2.retrieveCount := by
  cases hs : s.inst with
  | none =>
      simp [create, new_instance, async_init, hs]
  | some i =>
      by_cases hi : i.initialized <;>
        simp [create, new_instance, async_init, hs, hi]

/-- Helper for C9: a single public operation preserves a completed
initialization and its attribute values. -/
theorem stepOp_configReady (cfg : Config) (s : GlobalState) (c : AsstConfig) (op : Op)
    (h : configReady s c) : configReady (stepOp cfg s op) c := by
  obtain ⟨i, hs, hinit, hcfg⟩ := h
  cases op with
  | opCreate r =>
      have : stepOp cfg s (.opCreate r) = s := by
        simp [stepOp, create, new_instance, async_init, hs, hinit]
      rw [this]; exact ⟨i, hs, hinit, hcfg⟩
  | opGetInstance =>
      have : stepOp cfg s .opGetInstance = s := by
        simp [stepOp, get_instance, new_instance, hs, hinit]
      rw [this]; exact ⟨i, hs, hinit, hcfg⟩
  | opCreateAsstThread uid call => exact ⟨i, hs, hinit, hcfg⟩
  | opAddToAsstThread tid msg call => exact ⟨i, hs, hinit, hcfg⟩
  | opImageDescriber call => exact ⟨i, hs, hinit, hcfg⟩
  | opTextSummarizer call => exact ⟨i, hs, hinit, hcfg⟩
  | opLinkSummarizer call => exact ⟨i, hs, hinit, hcfg⟩
  | opDetermineContentType ms call => exact ⟨i, hs, hinit, hcfg⟩
  | opRequestAsstResponse tid call => exact ⟨i, hs, hinit, hcfg⟩

/-- C9: once initialization has completed with attribute values `c`, no
sequence of public operations of the client changes the assistant
reference or any of the three (model id, temperature) slots: the instance
stays initialized with exactly the attributes `c`. -/
theorem config_immutable_after_init (cfg : Config) (s : GlobalState) (c : AsstConfig)
    (ops : List Op) (h : configReady s c) :
    configReady (ops.foldl (stepOp cfg) s) c := by
  induction ops generalizing s with
  | nil => exact h
  | cons op rest ih => exact ih _ (stepOp_configReady cfg s c op h)

/-- C9 witness: the invariant instantiated on a concrete initialized state
and a concrete run of operations. -/
theorem config_immutable_after_init_witness :
    configReady
      ([Op.opGetInstance, Op.opCreate (.error "down"),
        Op.opDetermineContentType [] (.error "down"),
        Op.opImageDescriber (.ok { choices := [] })].foldl (stepOp cfgW) readyStateW)
      asstCfgW :=
  config_immutable_after_init cfgW readyStateW asstCfgW _ ⟨instW, rfl, rfl, rfl⟩

/-- C10: `determine_content_type` never mutates the caller's message list:
the build step only reads the caller's cell and allocates a fresh cell
holding `[system_msg, *OAI_messages, final_msg]`, so every existing heap
cell — the input list in particular — is unchanged. -/
theorem determine_content_type_build_no_mutation (h : PyHeap) (r : Nat)
    (hr : r < h.cells.length) :
    (determine_content_type_build h r).1.cells
      = h.cells ++ [determine_content_type_messages (readList h r)] ∧
    readList (determine_content_type_build h r).1 r = readList h r ∧
    readList (determine_content_type_build h r).1 (determine_content_type_build h r).2
      = classifySystemMsg :: (readList h r ++ [classifyFinalMsg]) := by
  refine ⟨rfl, ?_, ?_⟩
  · show readList { cells := h.cells ++ [_] } r = readList h r
    simp [readList, List.getElem?_append_left hr]
  · show readList { cells := h.cells ++ [_] } h.cells.length = _
    simp [readList, List.getElem?_concat_length, determine_content_type_messages]

/-- C10 witness: the frame property on a concrete heap and reference. -/
theorem determine_content_type_build_no_mutation_witness :
    (determine_content_type_build heapW 0).1.cells
      = heapW.cells ++ [determine_content_type_messages (readList heapW 0)] ∧
    readList (determine_content_type_build heapW 0).1 0 = readList heapW 0 ∧
    readList (determine_content_type_build heapW 0).1 (determine_content_type_build heapW 0).2
      = classifySystemMsg :: (readList heapW 0 ++ [classifyFinalMsg]) :=
  determine_content_type_build_no_mutation heapW 0 (by decide)
